import Mathlib

/-!
Verification of the request-processing pipeline and token core of the
FastAPI-Template repository, shallowly embedded in Lean.

Conventions of the embedding:
* Python `int` values (timestamps, limits, ids, status codes) become `Int`.
* Python lists become `List`, dicts keyed by strings become association lists.
* Fallible Python code (raised exceptions) becomes `Except`-valued functions.
* Each definition is translated from the repository source file named in its
  doc comment; the only definitions not taken from the source are explicitly
  marked as modelled from the specification (external jose library calls) or
  as the specification's wording set up for comparison against the code.
-/

/- ## Rate limiter: app/api/middlewares/security.py, RateLimitingMiddleware -/

/--
One call of `RateLimitingMiddleware._check_rate_limit` for a fixed key, in the
in-memory branch (security.py lines 64-89, `self.redis` absent):
`window_start = current_time - self.window_size`;
keep `ts` with `ts > window_start`; append `current_time`; `count` the list;
return `(count <= limit, count)`.  The result is `((allowed, count), updated
recorded-timestamp list for the key)`.
-/
def checkRateLimit (windowSize limit now : Int) (recorded : List Int) :
    (Bool × Int) × List Int :=
  let windowStart := now - windowSize
  let kept := recorded.filter (fun ts => decide (windowStart < ts))
  let recorded2 := kept ++ [now]
  let count : Int := recorded2.length
  ((decide (count ≤ limit), count), recorded2)

/--
The per-call purge step as the specification words it: "(a) drop entries in
the window older than `now - windowSize`", i.e. drop exactly the timestamps
strictly below the cutoff and keep every timestamp at or after it; steps
(b)-(d) as in the specification.  This definition exists only to be compared
against `checkRateLimit`, which is the code's behaviour.
-/
def checkRateLimitClaimed (windowSize limit now : Int) (recorded : List Int) :
    (Bool × Int) × List Int :=
  let windowStart := now - windowSize
  let kept := recorded.filter (fun ts => decide (windowStart ≤ ts))
  let recorded2 := kept ++ [now]
  let count : Int := recorded2.length
  ((decide (count ≤ limit), count), recorded2)

/--
The recorded-timestamp state of one key after a sequence of checks, one check
per element of the list of call times (oldest first).
-/
def limiterState (windowSize limit : Int) (recorded : List Int) :
    List Int → List Int
  | [] => recorded
  | t :: rest =>
      limiterState windowSize limit (checkRateLimit windowSize limit t recorded).2 rest

/--
Run one key's rate-limit checks at the given call times (oldest first),
starting from the recorded state `recorded`; the result pairs every call time
with the admission decision the check returned for it.
-/
def runLimiter (windowSize limit : Int) (recorded : List Int) :
    List Int → List (Int × Bool)
  | [] => []
  | t :: rest =>
      let r := checkRateLimit windowSize limit t recorded
      (t, r.1.1) :: runLimiter windowSize limit r.2 rest

/-- A plain HTTP response as the middlewares build it: status code, body, headers. -/
structure HttpResponse where
  status : Int
  content : String
  headers : List (String × String) := []
  deriving DecidableEq, Repr

/--
Configuration of `RateLimitingMiddleware.__init__` (security.py lines 38-52):
default limit, per-path overrides, window size in seconds, excluded paths.
-/
structure RateLimitConfig where
  rateLimit : Int := 100
  rateLimitByPath : List (String × Int) := []
  windowSize : Int := 60
  excludePaths : List String := ["/health", "/metrics"]

/-- `RateLimitingMiddleware._get_rate_limit`: per-path override or the default. -/
def getRateLimit (cfg : RateLimitConfig) (path : String) : Int :=
  (cfg.rateLimitByPath.lookup path).getD cfg.rateLimit

/--
`RateLimitingMiddleware.dispatch` (security.py lines 91-131) for one client
key: skip excluded paths; otherwise run the check and either pass the request
through (`callNext` is the response of the rest of the chain) or short-circuit
with a 429 response carrying `Retry-After = str(window_size)`.  The second
component is the key's updated recorded state.
-/
def rateLimitDispatch (cfg : RateLimitConfig) (path : String) (now : Int)
    (recorded : List Int) (callNext : HttpResponse) : HttpResponse × List Int :=
  if path ∈ cfg.excludePaths then (callNext, recorded)
  else
    let limit := getRateLimit cfg path
    let r := checkRateLimit cfg.windowSize limit now recorded
    if !r.1.1 then
      ({ status := 429, content := "Too Many Requests",
         headers := [("Retry-After", toString cfg.windowSize)] }, r.2)
    else (callNext, r.2)

/--
The recorded state of one key after `n` consecutive `dispatch` calls for the
same path, all arriving at time `t`, starting from an empty window.
-/
def iterRateLimitState (cfg : RateLimitConfig) (path : String) (t : Int)
    (callNext : HttpResponse) : Nat → List Int
  | 0 => []
  | n + 1 =>
      (rateLimitDispatch cfg path t (iterRateLimitState cfg path t callNext n) callNext).2

/- ## Security headers: app/api/middlewares/security.py, SecurityHeadersMiddleware -/

/--
Assignment to `response.headers[k]`: starlette's `MutableHeaders.__setitem__`
removes every existing entry for the key and appends the new one, so header
assignment sets rather than appends.
-/
def setHeader (hs : List (String × String)) (k v : String) :
    List (String × String) :=
  hs.filter (fun p => p.1 != k) ++ [(k, v)]

/--
`SecurityHeadersMiddleware.dispatch` (security.py lines 151-167) applied to
the headers of the response returned by `call_next`: the seven security
headers are assigned in source order.
-/
def applySecurityHeaders (hs : List (String × String)) : List (String × String) :=
  let h1 := setHeader hs "X-Content-Type-Options" "nosniff"
  let h2 := setHeader h1 "X-Frame-Options" "DENY"
  let h3 := setHeader h2 "X-XSS-Protection" "1; mode=block"
  let h4 := setHeader h3 "Strict-Transport-Security" "max-age=31536000; includeSubDomains"
  let h5 := setHeader h4 "Content-Security-Policy" "default-src \x27self\x27"
  let h6 := setHeader h5 "Referrer-Policy" "strict-origin-when-cross-origin"
  setHeader h6 "Permissions-Policy" "geolocation=(), microphone=()"

/-- The seven security header assignments of `dispatch`, in source order. -/
def securityHeaderList : List (String × String) :=
  [("X-Content-Type-Options", "nosniff"),
   ("X-Frame-Options", "DENY"),
   ("X-XSS-Protection", "1; mode=block"),
   ("Strict-Transport-Security", "max-age=31536000; includeSubDomains"),
   ("Content-Security-Policy", "default-src \x27self\x27"),
   ("Referrer-Policy", "strict-origin-when-cross-origin"),
   ("Permissions-Policy", "geolocation=(), microphone=()")]

/-- Assign each header of `L` in order, starting from the header list `hs`. -/
def setHeaderFold (hs : List (String × String)) (L : List (String × String)) :
    List (String × String) :=
  L.foldl (fun acc kv => setHeader acc kv.1 kv.2) hs

/-- Header entries whose key does not occur among the keys of `L`. -/
def keyNotIn (L : List (String × String)) (p : String × String) : Bool :=
  L.all (fun kv => p.1 != kv.1)

/- ## Injection screen: app/api/middlewares/security.py, SQLInjectionMiddleware -/

/-- Python regex `\w` restricted to ASCII text: letters, digits, underscore. -/
def isWordChar (c : Char) : Bool :=
  c.isAlphanum || c == '_'

/-- Python regex `\s`: whitespace. -/
def isSpaceChar (c : Char) : Bool :=
  c.isWhitespace

/-- Python regex `.` without DOTALL: any character except a newline. -/
def isDotChar (c : Char) : Bool :=
  c != '\n'

/-- The apostrophe / single-quote character used by patterns 2 and 6. -/
def squote : Char := Char.ofNat 39

/--
Nondeterministic single-character matcher: the list of remainders of the
input after consuming one character satisfying `p` (empty list: no match).
-/
def mchar (p : Char → Bool) : List Char → List (List Char)
  | [] => []
  | c :: rest => if p c then [rest] else []

/-- Sequencing of nondeterministic matchers. -/
def mseq (a b : List Char → List (List Char)) (s : List Char) :
    List (List Char) :=
  (a s).flatMap b

/-- Zero or more characters satisfying `p` (regex `p*`, reluctant or greedy alike). -/
def many0 (p : Char → Bool) : List Char → List (List Char)
  | [] => [[]]
  | c :: rest => (c :: rest) :: (if p c then many0 p rest else [])

/-- One or more characters satisfying `p` (regex `p+`). -/
def many1 (p : Char → Bool) (s : List Char) : List (List Char) :=
  mseq (mchar p) (many0 p) s

/-- A literal word, case-insensitively when `ci` is set (regex `(?i)` flag). -/
def mlit (ci : Bool) : List Char → List Char → List (List Char)
  | [], s => [s]
  | c :: wr, s =>
      mseq (mchar (fun d => if ci then d.toLower == c.toLower else d == c)) (mlit ci wr) s

/-- Python regex `\b` immediately before a word character, given the previous character. -/
def boundaryBefore (prev : Option Char) : Bool :=
  match prev with
  | none => true
  | some c => !isWordChar c

/--
A keyword wrapped in `\b...\b` (all pattern keywords consist of word
characters): the character before the match position must not be a word
character, and neither may the first character of the remainder.
-/
def mword (ci : Bool) (w : List Char) (prev : Option Char) (s : List Char) :
    List (List Char) :=
  if boundaryBefore prev then
    (mlit ci w s).filter (fun r =>
      match r with
      | [] => true
      | c :: _ => !isWordChar c)
  else []

/-- A matcher that may consult the character preceding the match position. -/
def Matcher : Type :=
  Option Char → List Char → List (List Char)

/-- Sequencing a context-aware matcher with a plain one. -/
def mseqM (a : Matcher) (b : List Char → List (List Char)) : Matcher :=
  fun prev s => (a prev s).flatMap b

/-- Lift a context-free matcher to a `Matcher`. -/
def noCtx (f : List Char → List (List Char)) : Matcher :=
  fun _ s => f s

/-- Alternation over literal words. -/
def kwAlt (ci : Bool) (ws : List String) (s : List Char) : List (List Char) :=
  ws.flatMap (fun w => mlit ci w.data s)

/-- Alternation over `\b`-wrapped keywords. -/
def wordAlt (ci : Bool) (ws : List String) : Matcher :=
  fun prev s => ws.flatMap (fun w => mword ci w.data prev s)

/--
`re.search`: try the matcher at every position of the text, feeding it the
character preceding that position; true iff some position matches.
-/
def searchFrom (m : Matcher) : Option Char → List Char → Bool
  | prev, [] => !(m prev []).isEmpty
  | prev, c :: rest => !(m prev (c :: rest)).isEmpty || searchFrom m (some c) rest

/-- `pattern.search(text)` as a Bool. -/
def search (m : Matcher) (text : String) : Bool :=
  searchFrom m none text.data

/-- Pattern 1, `(?i)(SELECT|INSERT|UPDATE|DELETE|DROP|UNION|ALTER).*?;`. -/
def pat1 : Matcher :=
  noCtx (mseq (kwAlt true ["SELECT", "INSERT", "UPDATE", "DELETE", "DROP", "UNION", "ALTER"])
    (mseq (many0 isDotChar) (mchar (· == ';'))))

/-- Pattern 2, `(?i)(\b(AND|OR)\b\s+\w+\s*=\s*\w+)`. -/
def pat2 : Matcher :=
  mseqM (wordAlt true ["AND", "OR"])
    (mseq (many1 isSpaceChar)
      (mseq (many1 isWordChar)
        (mseq (many0 isSpaceChar)
          (mseq (mchar (· == '='))
            (mseq (many0 isSpaceChar) (many1 isWordChar))))))

/-- Pattern 3, `(?i)(--|\#|\/\*|\*\/)`. -/
def pat3 : Matcher :=
  noCtx (kwAlt true ["--", "#", "/*", "*/"])

/-- Pattern 4, `(?i)(\bEXEC\b|\bLIKE\b)`. -/
def pat4 : Matcher :=
  wordAlt true ["EXEC", "LIKE"]

/-- Pattern 5, `(?i)(\bSYSTEM\b|\bUSER\b|\bDATABASE\b)`. -/
def pat5 : Matcher :=
  wordAlt true ["SYSTEM", "USER", "DATABASE"]

/-- Pattern 6, the string-escape-then-comment pattern: quote, `.*?`, quote, `;`, `\s*`, `--`. -/
def pat6 : Matcher :=
  noCtx (mseq (mchar (· == squote))
    (mseq (many0 isDotChar)
      (mseq (mchar (· == squote))
        (mseq (mchar (· == ';'))
          (mseq (many0 isSpaceChar) (mlit false ['-', '-']))))))

/-- Pattern 7, `\b(CONCAT|CHAR|ASCII)\b.*?\(` (the only case-sensitive pattern). -/
def pat7 : Matcher :=
  mseqM (wordAlt false ["CONCAT", "CHAR", "ASCII"])
    (mseq (many0 isDotChar) (mchar (· == '(')))

/-- `self.patterns`, compiled in source order (security.py lines 198-209). -/
def sqlPatterns : List Matcher :=
  [pat1, pat2, pat3, pat4, pat5, pat6, pat7]

/--
`SQLInjectionMiddleware._check_sql_injection` (security.py lines 211-213):
`any(pattern.search(text) for pattern in self.patterns)`.
-/
def checkSqlInjection (text : String) : Bool :=
  sqlPatterns.any (fun m => search m text)

/--
The request-data loop of `SQLInjectionMiddleware.dispatch` (security.py lines
240-258): walk the flattened request fields in order; on the first suspicious
value return the 400 response when `block_suspicious` is set, otherwise only
log and keep going; reaching the end of the loop forwards to `call_next`.
-/
def sqlInjectionLoop (blockSuspicious : Bool) (vals : List String)
    (callNext : HttpResponse) : HttpResponse :=
  match vals with
  | [] => callNext
  | v :: rest =>
      if checkSqlInjection v then
        if blockSuspicious then { status := 400, content := "Invalid request" }
        else sqlInjectionLoop blockSuspicious rest callNext
      else sqlInjectionLoop blockSuspicious rest callNext

/--
`SQLInjectionMiddleware.dispatch` over the request data assembled by
`_get_request_data`: an ordered association list (query params first, then
path params, then the stringified body for mutating methods) whose values are
screened.
-/
def sqlInjectionDispatch (blockSuspicious : Bool)
    (requestData : List (String × String)) (callNext : HttpResponse) :
    HttpResponse :=
  sqlInjectionLoop blockSuspicious (requestData.map Prod.snd) callNext

/-- The query string of the C7 scenario. -/
def c7Query : String := "q=\x27 OR 1=1 --"

/- ## Token core: app/services/auth.py, app/schemas/token.py, app/api/deps.py -/

/-- A JWT claim value: the payloads built by the service hold strings and timestamps. -/
inductive ClaimValue
  | str (s : String)
  | int (n : Int)
  deriving DecidableEq, Repr

/--
A signed token: the claim payload together with the key it was signed with.
An HMAC signature is determined by (key, payload) and verification recomputes
it from the candidate key and compares, so carrying the signing key is an
equivalent rendering of the signature.
-/
structure SignedToken where
  payload : List (String × ClaimValue)
  signingKey : String
  deriving DecidableEq, Repr

/-- `settings.ACCESS_TOKEN_EXPIRE_MINUTES` (core/config.py line 22). -/
def ACCESS_TOKEN_EXPIRE_MINUTES : Int := 60 * 24 * 8

/-- `settings.REFRESH_TOKEN_EXPIRE_MINUTES` (core/config.py line 23). -/
def REFRESH_TOKEN_EXPIRE_MINUTES : Int := 60 * 24 * 30

/--
`AuthService.create_access_token` (services/auth.py lines 34-53), in the
branch where `expires_delta` is passed (as both endpoints do); the delta is in
seconds, `now` is `datetime.utcnow()` as a unix timestamp, and the payload is
`{"exp": expire, "sub": str(subject)}` signed with the configured secret.
-/
def create_access_token (subject : String) (expiresDeltaSecs : Int)
    (secretKey : String) (now : Int) : SignedToken :=
  { payload := [("exp", ClaimValue.int (now + expiresDeltaSecs)),
                ("sub", ClaimValue.str subject)],
    signingKey := secretKey }

/--
`AuthService.create_refresh_token` (services/auth.py lines 55-74): its body is
the same as `create_access_token`, only the default expiry differs.
-/
def create_refresh_token (subject : String) (expiresDeltaSecs : Int)
    (secretKey : String) (now : Int) : SignedToken :=
  { payload := [("exp", ClaimValue.int (now + expiresDeltaSecs)),
                ("sub", ClaimValue.str subject)],
    signingKey := secretKey }

/-- Failures of token decoding, all mapped to one InvalidToken outcome by callers. -/
inductive JWTError
  | invalidSignature
  | malformedPayload
  | expired
  deriving DecidableEq, Repr

/--
Modelled from the spec: `jwt.decode(token, SECRET_KEY, algorithms=["HS256"])`.
The signature and expiry validation live in the external jose library, not in
this repository; the specification states that verification "fails when
signature invalid, payload malformed, or `now >= expiresAt`" and that a token
verified exactly at `expiresAt` fails.  Decoding therefore rejects a token
whose signature does not match the server secret, whose `exp` claim is absent
or not a timestamp, or whose expiry is at or before `now`.
-/
def jwtDecode (token : SignedToken) (secretKey : String) (now : Int) :
    Except JWTError (List (String × ClaimValue)) :=
  if token.signingKey ≠ secretKey then .error .invalidSignature
  else
    match token.payload.lookup "exp" with
    | some (ClaimValue.int e) =>
        if e ≤ now then .error .expired else .ok token.payload
    | _ => .error .malformedPayload

/--
`TokenPayload` (schemas/token.py lines 42-74): `sub` and `exp` are required,
`iat` and `jti` default to `None`, and `type` defaults to `"access"`.
-/
structure TokenPayload where
  sub : ClaimValue
  exp : Int
  iat : Option Int := none
  type : String := "access"
  jti : Option String := none
  deriving DecidableEq, Repr

/-- The `exp` claim of a decoded payload, when present as a timestamp. -/
def payloadExp (p : List (String × ClaimValue)) : Option Int :=
  match p.lookup "exp" with
  | some (ClaimValue.int e) => some e
  | _ => none

/--
`TokenPayload(**payload)`: pydantic validation of the decoded claim dict.
Fails when a required field (`sub`, `exp`) is missing; optional fields take
their declared defaults when absent.
-/
def parseTokenPayload (p : List (String × ClaimValue)) : Option TokenPayload :=
  match p.lookup "sub", payloadExp p with
  | some sv, some e =>
      some { sub := sv,
             exp := e,
             iat := match p.lookup "iat" with
                    | some (ClaimValue.int n) => some n
                    | _ => none,
             type := match p.lookup "type" with
                     | some (ClaimValue.str t) => t
                     | _ => "access",
             jti := match p.lookup "jti" with
                    | some (ClaimValue.str j) => some j
                    | _ => none }
  | _, _ => none

/--
Token verification as performed inside `get_current_user` (api/deps.py lines
38-46): decode and validate the signed token, then validate the claim shape
with `TokenPayload`; any failure is the InvalidToken outcome.
-/
def verifyToken (token : SignedToken) (secretKey : String) (now : Int) :
    Except JWTError TokenPayload :=
  match jwtDecode token secretKey now with
  | .error e => .error e
  | .ok payload =>
      match parseTokenPayload payload with
      | some tp => .ok tp
      | none => .error .malformedPayload

/- ## Auth endpoints: app/api/endpoints/user.py, app/services/auth.py -/

/-- A row of the users table (models/user.py), as the endpoints read it. -/
structure UserRec where
  id : Int
  email : String
  hashed_password : String
  is_active : Bool
  deriving DecidableEq, Repr

/-- The `UserStore` lookup by email used by `AuthService.authenticate`. -/
def findByEmail (users : List UserRec) (email : String) : Option UserRec :=
  users.find? (fun u => u.email == email)

/-- `db.get(User, user_id)`: the `UserStore` lookup by primary key. -/
def dbGet (users : List UserRec) (uid : Int) : Option UserRec :=
  users.find? (fun u => u.id == uid)

/--
`AuthService.authenticate` (services/auth.py lines 17-32).  The password
hasher is the external `PasswordHasher` collaborator, passed in as
`verifyPw plain digest`.
-/
def authenticate (verifyPw : String → String → Bool) (users : List UserRec)
    (email password : String) : Option UserRec :=
  match findByEmail users email with
  | none => none
  | some user =>
      if !verifyPw password user.hashed_password then none else some user

/-- A Python-level failure escaping an endpoint body. -/
inductive EndpointFailure
  | httpException (statusCode : Int) (detail : String)
  | validationError (missingField : String)
  | uncaughtError (msg : String)
  deriving DecidableEq, Repr

/--
The `Token` response model (schemas/token.py lines 6-40): `access_token`,
`refresh_token` and `expires_in` are required fields, `token_type` defaults
to `"bearer"`.
-/
structure TokenResponse where
  access_token : SignedToken
  refresh_token : SignedToken
  token_type : String
  expires_in : Int
  deriving DecidableEq, Repr

/--
Constructing the pydantic `Token` model with the keyword arguments actually
supplied: `expires_in` is declared required (`Field(...)`), so constructing
the model without it raises a `ValidationError` instead of producing a value.
-/
def mkTokenResponse (access refresh : SignedToken) (tokenType : String)
    (expiresIn : Option Int) : Except EndpointFailure TokenResponse :=
  match expiresIn with
  | some n =>
      .ok { access_token := access, refresh_token := refresh,
            token_type := tokenType, expires_in := n }
  | none => .error (.validationError "expires_in")

/--
The `login` endpoint (api/endpoints/user.py lines 18-61): authenticate, 401
on bad credentials, 400 on an inactive user, then build the `Token` response
from a fresh access/refresh pair -- passing `access_token`, `refresh_token`
and `token_type="bearer"` but not `expires_in`.
-/
def login (verifyPw : String → String → Bool) (users : List UserRec)
    (email password secretKey : String) (now : Int) :
    Except EndpointFailure TokenResponse :=
  match authenticate verifyPw users email password with
  | none => .error (.httpException 401 "Incorrect email or password")
  | some user =>
      if !user.is_active then .error (.httpException 400 "Inactive user")
      else
        mkTokenResponse
          (create_access_token (toString user.id) (ACCESS_TOKEN_EXPIRE_MINUTES * 60)
            secretKey now)
          (create_refresh_token (toString user.id) (REFRESH_TOKEN_EXPIRE_MINUTES * 60)
            secretKey now)
          "bearer" none

/-- Fold an all-digit character list into a number; `none` on a non-digit. -/
def digitsToNatAux (acc : Nat) : List Char → Option Nat
  | [] => some acc
  | c :: rest =>
      if c.isDigit then digitsToNatAux (acc * 10 + (c.toNat - 48)) rest
      else none

/-- Python `int(s)` on a decimal string: optional leading minus, then digits. -/
def pyIntOfString (s : String) : Option Int :=
  match s.data with
  | [] => none
  | '-' :: rest =>
      match rest with
      | [] => none
      | _ => (digitsToNatAux 0 rest).map (fun n => -(n : Int))
  | ds => (digitsToNatAux 0 ds).map (fun n => (n : Int))

/-- `int(payload["sub"])` in the refresh endpoint. -/
def payloadSubInt (p : List (String × ClaimValue)) : Option Int :=
  match p.lookup "sub" with
  | some (ClaimValue.str s) => pyIntOfString s
  | some (ClaimValue.int n) => some n
  | none => none

/--
The `refresh_token` endpoint (api/endpoints/user.py lines 73-121): decode the
presented token with the server secret (`except JWTError` yields the 401), read
`int(payload["sub"])` (a failure there is not a `JWTError` and escapes the
handler), 401 unless the subject exists and is active, then build a brand-new
token pair through the same `Token` constructor call as `login` -- again
without `expires_in`.
-/
def refresh_endpoint (users : List UserRec) (refreshToken : SignedToken)
    (secretKey : String) (now : Int) : Except EndpointFailure TokenResponse :=
  match jwtDecode refreshToken secretKey now with
  | .error _ => .error (.httpException 401 "Invalid refresh token")
  | .ok payload =>
      match payloadSubInt payload with
      | none => .error (.uncaughtError "int(payload[sub])")
      | some uid =>
          match dbGet users uid with
          | none => .error (.httpException 401 "Invalid refresh token")
          | some user =>
              if !user.is_active then
                .error (.httpException 401 "Invalid refresh token")
              else
                mkTokenResponse
                  (create_access_token (toString user.id)
                    (ACCESS_TOKEN_EXPIRE_MINUTES * 60) secretKey now)
                  (create_refresh_token (toString user.id)
                    (REFRESH_TOKEN_EXPIRE_MINUTES * 60) secretKey now)
                  "bearer" none

/-- A deterministic stand-in for the external password hasher in closed scenarios. -/
def demoVerifyPw (plain digest : String) : Bool :=
  digest == "hashed:" ++ plain

/-- A one-user store for the closed login/refresh scenarios. -/
def demoUsers : List UserRec :=
  [{ id := 1, email := "u@example.com", hashed_password := "hashed:pw1",
     is_active := true }]

/- ## Exception boundary: app/api/middlewares/exception.py -/

/-- The classes of exception `ExceptionHandlerMiddleware.dispatch` distinguishes. -/
inductive PyFailure
  | appException (errorCode statusCode : Int) (message : String) (details : Option String)
  | validationFailure (errors : String)
  | databaseError (msg : String)
  | unknown (msg : String)
  deriving DecidableEq, Repr

/-- `ErrorResponse` (schemas/error.py): the uniform wire error envelope. -/
structure ErrorResponse where
  error_code : Int
  message : String
  details : Option String := none
  trace_id : Option String := none
  deriving DecidableEq, Repr

/-- A `JSONResponse` carrying an error envelope. -/
structure JsonErrorResponse where
  status_code : Int
  content : ErrorResponse
  deriving DecidableEq, Repr

/-- `ExceptionHandlerMiddleware._handle_app_exception` (exception.py lines 63-90). -/
def handle_app_exception (requestId : Option String)
    (errorCode statusCode : Int) (message : String) (details : Option String) :
    JsonErrorResponse :=
  { status_code := statusCode,
    content := { error_code := errorCode, message := message,
                 details := details, trace_id := requestId } }

/-- `ExceptionHandlerMiddleware._handle_validation_error` (exception.py lines 92-117). -/
def handle_validation_error (requestId : Option String) (errors : String) :
    JsonErrorResponse :=
  { status_code := 400,
    content := { error_code := 4000, message := "Validation error",
                 details := some errors, trace_id := requestId } }

/-- `ExceptionHandlerMiddleware._handle_database_error` (exception.py lines 119-145). -/
def handle_database_error (debug : Bool) (requestId : Option String)
    (msg : String) : JsonErrorResponse :=
  { status_code := 500,
    content := { error_code := 5000, message := "Database error occurred",
                 details := if debug then some msg else none,
                 trace_id := requestId } }

/--
`ExceptionHandlerMiddleware._handle_unknown_error` (exception.py lines
147-184): the envelope is built with code 5001, message "Internal server
error" and the request id, leaving `details` at its `None` default; only in
debug mode is `details` then filled with the stringified exception and
traceback.
-/
def handle_unknown_error (debug : Bool) (requestId : Option String)
    (msg : String) : JsonErrorResponse :=
  let base : ErrorResponse :=
    { error_code := 5001, message := "Internal server error",
      trace_id := requestId }
  { status_code := 500,
    content := if debug then { base with details := some msg } else base }

/--
`ExceptionHandlerMiddleware.dispatch` (exception.py lines 39-61): return the
inner response unchanged, or translate the one exception that escaped it into
exactly one error envelope, classified in source order (`AppException`,
pydantic `ValidationError`, `SQLAlchemyError`, anything else).
-/
def exceptionDispatch {α : Type} (debug : Bool) (requestId : Option String)
    (callNextResult : Except PyFailure α) : α ⊕ JsonErrorResponse :=
  match callNextResult with
  | .ok response => .inl response
  | .error (.appException ec sc msg det) =>
      .inr (handle_app_exception requestId ec sc msg det)
  | .error (.validationFailure errs) =>
      .inr (handle_validation_error requestId errs)
  | .error (.databaseError msg) =>
      .inr (handle_database_error debug requestId msg)
  | .error (.unknown msg) =>
      .inr (handle_unknown_error debug requestId msg)

/-- A concrete rate-limit configuration for the closed boundary scenario. -/
def c6Cfg : RateLimitConfig :=
  { rateLimit := 2, rateLimitByPath := [], windowSize := 60, excludePaths := [] }

/-- A concrete downstream response for the closed middleware scenarios. -/
def okResponse : HttpResponse :=
  { status := 200, content := "OK" }

/- ## Theorems -/

/--
Claim C2 counterexample.  The claim describes the purge step as dropping the
timestamps older than `now - windowSize`; the code drops the timestamps at or
below `now - windowSize` (`ts > window_start` is kept).  At the concrete state
`[0]` with `window_size = 60`, `limit = 1` and `now = 60` the two procedures
disagree: the code purges the entry at the cutoff and permits the call, while
the claimed procedure keeps it and rejects the call.
-/
theorem rate_limit_purge_boundary_counterexample :
    checkRateLimit 60 1 60 [0] ≠ checkRateLimitClaimed 60 1 60 [0]
    ∧ (checkRateLimit 60 1 60 [0]).1.1 = true
    ∧ (checkRateLimitClaimed 60 1 60 [0]).1.1 = false := by
  refine ⟨by decide, by decide, by decide⟩

/--
Claim C2, amended.  Each rate-limiter check at time `now` performs, in order:
drop the recorded timestamps at or before `now - windowSize` (keeping exactly
the strictly newer ones), record `now` as a new entry, count the remaining
entries, and permit iff the count is at most the limit; the current call's own
timestamp is included in its own count, and the timestamp stays recorded even
when the call is rejected.
-/
theorem rate_limit_check_steps (windowSize limit now : Int) (recorded : List Int) :
    (checkRateLimit windowSize limit now recorded).2 =
        recorded.filter (fun ts => decide (now - windowSize < ts)) ++ [now]
    ∧ (checkRateLimit windowSize limit now recorded).1.2 =
        (((checkRateLimit windowSize limit now recorded).2).length : Int)
    ∧ ((checkRateLimit windowSize limit now recorded).1.1 = true ↔
        (checkRateLimit windowSize limit now recorded).1.2 ≤ limit) := by
  refine ⟨rfl, rfl, ?_⟩
  simp [checkRateLimit]

/--
Claim C8: an unhandled internal error raised inside the business handler
produces exactly one error envelope, with the fixed internal-server-error code
5001, HTTP status 500, a `details` field that is null outside debug mode, and
a `trace_id` equal to the request's id when one is available (null otherwise).
-/
theorem unknown_error_translation (requestId : Option String) (msg : String) :
    exceptionDispatch (α := HttpResponse) false requestId (.error (.unknown msg)) =
      .inr { status_code := 500,
             content := { error_code := 5001, message := "Internal server error",
                          details := none, trace_id := requestId } } := rfl

/--
Claim C5 (code bug): for an active stored user with a matching password, the
`login` endpoint does not return the claimed token pair: building the `Token`
response model without its required `expires_in` field raises a pydantic
`ValidationError`, so the success path errors out.  The wrong-password half of
the claim holds: the endpoint raises the 401 authentication failure and no
token.
-/
theorem login_omits_required_expires_in :
    login demoVerifyPw demoUsers "u@example.com" "pw1" "k" 0 =
        .error (.validationError "expires_in")
    ∧ login demoVerifyPw demoUsers "u@example.com" "bad" "k" 0 =
        .error (.httpException 401 "Incorrect email or password") :=
  ⟨rfl, rfl⟩

/--
Claim C10: issued tokens carry only the claims `exp` and `sub`; the access and
refresh creators are the same function, so the two token kinds are
indistinguishable; and the refresh endpoint accepts a validly signed,
unexpired access token of an active user -- but the claimed "issues a new
token pair" step fails, because the endpoint builds the `Token` response
without its required `expires_in` field (the same slip as in `login`).
-/
theorem token_claims_minimal_and_interchangeable :
    (∀ (subject secretKey : String) (delta now : Int),
        (create_access_token subject delta secretKey now).payload.map Prod.fst =
          ["exp", "sub"])
    ∧ create_access_token = create_refresh_token
    ∧ refresh_endpoint demoUsers
        (create_access_token "1" (ACCESS_TOKEN_EXPIRE_MINUTES * 60) "k" 0) "k" 10 =
        .error (.validationError "expires_in") :=
  ⟨fun _ _ _ _ => rfl, rfl, rfl⟩

/--
Claim C3: verifying an access token issued for a subject with a positive ttl,
at any time strictly before `issuedAt + ttl`, succeeds and yields claims whose
subject equals the issuing subject and whose token type is the default
`"access"`.
-/
theorem access_token_roundtrip (subject secretKey : String) (ttl now t : Int)
    (httl : 0 < ttl) (hbefore : t < now + ttl) :
    verifyToken (create_access_token subject ttl secretKey now) secretKey t =
      .ok { sub := ClaimValue.str subject, exp := now + ttl } := by
  have h : ¬ (now + ttl ≤ t) := by omega
  simp [verifyToken, jwtDecode, create_access_token, parseTokenPayload,
    payloadExp, List.lookup, h]

theorem access_token_roundtrip_witness :
    (0:Int) < 60 ∧ (59:Int) < 0 + 60 ∧
    verifyToken (create_access_token "42" 60 "secret" 0) "secret" 59 =
      .ok { sub := ClaimValue.str "42", exp := 0 + 60 } :=
  ⟨by decide, by decide, access_token_roundtrip "42" "secret" 60 0 59 (by decide) (by decide)⟩

/--
Claim C4: a token verified at a time exactly equal to its `expiresAt` fails as
expired, one verified one second before succeeds; and in general verification
fails exactly when the signature is invalid, the payload is malformed
(`TokenPayload` validation fails), or the evaluation time is at or past the
`exp` claim.
-/
theorem token_expiry_boundary (subject secretKey : String) (now ttl : Int)
    (httl : 0 < ttl) :
    verifyToken (create_access_token subject ttl secretKey now) secretKey (now + ttl) =
        .error .expired
    ∧ verifyToken (create_access_token subject ttl secretKey now) secretKey (now + ttl - 1) =
        .ok { sub := ClaimValue.str subject, exp := now + ttl }
    ∧ ∀ (tok : SignedToken) (key : String) (tm : Int),
        (verifyToken tok key tm).isOk = false ↔
          (tok.signingKey ≠ key ∨ parseTokenPayload tok.payload = none
            ∨ ∃ e, payloadExp tok.payload = some e ∧ e ≤ tm) := by
  refine ⟨?_, ?_, ?_⟩
  · simp [verifyToken, jwtDecode, create_access_token, List.lookup]
  · have h : ¬ (now + ttl ≤ now + ttl - 1) := by omega
    simp [verifyToken, jwtDecode, create_access_token, parseTokenPayload,
      payloadExp, List.lookup, h]
  · intro tok key tm
    constructor
    · intro hfail
      by_cases hsig : tok.signingKey = key
      · rcases hlk : tok.payload.lookup "exp" with _ | cv
        · right; left; simp [parseTokenPayload, payloadExp, hlk]
        · cases cv with
          | str s => right; left; simp [parseTokenPayload, payloadExp, hlk]
          | int e =>
              by_cases hte : e ≤ tm
              · right; right; exact ⟨e, by simp [payloadExp, hlk], hte⟩
              · right; left
                simp [verifyToken, jwtDecode, hsig, hlk, hte] at hfail
                cases hp : parseTokenPayload tok.payload with
                | none => rfl
                | some tp => rw [hp] at hfail; simp [Except.isOk, Except.toBool] at hfail
      · left; exact hsig
    · intro hcond
      rcases hcond with hsig | hparse | ⟨e, hpe, hte⟩
      · simp [verifyToken, jwtDecode, hsig, Except.isOk, Except.toBool]
      · by_cases hsig : tok.signingKey = key
        · rcases hlk : tok.payload.lookup "exp" with _ | cv
          · simp [verifyToken, jwtDecode, hsig, hlk, Except.isOk, Except.toBool]
          · cases cv with
            | str s => simp [verifyToken, jwtDecode, hsig, hlk, Except.isOk, Except.toBool]
            | int e =>
                by_cases hte : e ≤ tm
                · simp [verifyToken, jwtDecode, hsig, hlk, hte, Except.isOk, Except.toBool]
                · simp [verifyToken, jwtDecode, hsig, hlk, hte, hparse, Except.isOk, Except.toBool]
        · simp [verifyToken, jwtDecode, hsig, Except.isOk, Except.toBool]
      · by_cases hsig : tok.signingKey = key
        · have hlk : tok.payload.lookup "exp" = some (ClaimValue.int e) := by
            unfold payloadExp at hpe
            rcases h : tok.payload.lookup "exp" with _ | cv
            · rw [h] at hpe; cases hpe
            · rw [h] at hpe
              cases cv with
              | str s => cases hpe
              | int e2 => simp only [Option.some.injEq] at hpe; rw [hpe]
          simp [verifyToken, jwtDecode, hsig, hlk, hte, Except.isOk, Except.toBool]
        · simp [verifyToken, jwtDecode, hsig, Except.isOk, Except.toBool]

theorem token_expiry_boundary_witness :
    (0:Int) < 60 ∧
    verifyToken (create_access_token "7" 60 "k" 0) "k" (0 + 60) = .error .expired :=
  ⟨by decide, (token_expiry_boundary "7" "k" 0 60 (by decide)).1⟩

theorem rateLimitDispatch_state (cfg : RateLimitConfig) (path : String)
    (now : Int) (recorded : List Int) (callNext : HttpResponse)
    (hpath : path ∉ cfg.excludePaths) :
    (rateLimitDispatch cfg path now recorded callNext).2 =
      (checkRateLimit cfg.windowSize (getRateLimit cfg path) now recorded).2 := by
  simp only [rateLimitDispatch, if_neg hpath]
  cases (checkRateLimit cfg.windowSize (getRateLimit cfg path) now recorded).1.1 <;> simp

theorem replicate_filter_window (w t : Int) (hw : 0 < w) (k : Nat) :
    (List.replicate k t).filter (fun ts => decide (t - w < ts)) =
      List.replicate k t := by
  apply List.filter_eq_self.mpr
  intro a ha
  rw [List.eq_of_mem_replicate ha]
  exact decide_eq_true (by omega)

theorem iterRateLimitState_replicate (cfg : RateLimitConfig) (path : String)
    (t : Int) (callNext : HttpResponse) (hw : 0 < cfg.windowSize)
    (hpath : path ∉ cfg.excludePaths) (n : Nat) :
    iterRateLimitState cfg path t callNext n = List.replicate n t := by
  induction n with
  | zero => rfl
  | succ k ih =>
      show (rateLimitDispatch cfg path t (iterRateLimitState cfg path t callNext k) callNext).2 = _
      rw [ih, rateLimitDispatch_state cfg path t _ callNext hpath]
      show (List.replicate k t).filter (fun ts => decide (t - cfg.windowSize < ts)) ++ [t] = _
      rw [replicate_filter_window cfg.windowSize t hw k, ← List.replicate_succ']

/--
Claim C6: for a fresh window on a given key, the limit-th request is permitted
(the dispatch forwards to `call_next`) and the (limit+1)-th request is
rejected with a 429 short-circuit response whose `Retry-After` header equals
the configured window size in seconds.
-/
theorem rate_limit_boundary (cfg : RateLimitConfig) (path : String) (t : Int)
    (callNext : HttpResponse) (n : Nat)
    (hw : 0 < cfg.windowSize) (hpath : path ∉ cfg.excludePaths)
    (hn : 0 < n) (hlim : getRateLimit cfg path = (n : Int)) :
    (rateLimitDispatch cfg path t (iterRateLimitState cfg path t callNext (n - 1)) callNext).1 =
        callNext
    ∧ (rateLimitDispatch cfg path t (iterRateLimitState cfg path t callNext n) callNext).1 =
        { status := 429, content := "Too Many Requests",
          headers := [("Retry-After", toString cfg.windowSize)] } := by
  have hrep1 := iterRateLimitState_replicate cfg path t callNext hw hpath (n - 1)
  have hrep2 := iterRateLimitState_replicate cfg path t callNext hw hpath n
  constructor
  · rw [hrep1]
    have hallowed :
        (checkRateLimit cfg.windowSize (getRateLimit cfg path) t (List.replicate (n - 1) t)).1.1 =
          true := by
      simp only [checkRateLimit, replicate_filter_window cfg.windowSize t hw]
      rw [List.length_append, List.length_replicate, List.length_singleton]
      apply decide_eq_true
      rw [hlim]
      push_cast
      omega
    simp only [rateLimitDispatch, if_neg hpath, hallowed, Bool.not_true,
      Bool.false_eq_true, if_false]
  · rw [hrep2]
    have hblocked :
        (checkRateLimit cfg.windowSize (getRateLimit cfg path) t (List.replicate n t)).1.1 =
          false := by
      simp only [checkRateLimit, replicate_filter_window cfg.windowSize t hw]
      rw [List.length_append, List.length_replicate, List.length_singleton]
      apply decide_eq_false
      rw [hlim]
      push_cast
      omega
    simp only [rateLimitDispatch, if_neg hpath, hblocked, Bool.not_false, if_true]

theorem rate_limit_boundary_witness :
    (0:Int) < c6Cfg.windowSize ∧ "/x" ∉ c6Cfg.excludePaths ∧ 0 < 2 ∧
    getRateLimit c6Cfg "/x" = ((2 : Nat) : Int) ∧
    (rateLimitDispatch c6Cfg "/x" 5 (iterRateLimitState c6Cfg "/x" 5 okResponse (2 - 1)) okResponse).1 =
        okResponse
    ∧ (rateLimitDispatch c6Cfg "/x" 5 (iterRateLimitState c6Cfg "/x" 5 okResponse 2) okResponse).1 =
        { status := 429, content := "Too Many Requests",
          headers := [("Retry-After", toString c6Cfg.windowSize)] } := by
  refine ⟨by decide, by decide, by decide, by decide, ?_⟩
  exact rate_limit_boundary c6Cfg "/x" 5 okResponse 2 (by decide) (by decide)
    (by decide) (by decide)

theorem applySecurityHeaders_eq_fold (hs : List (String × String)) :
    applySecurityHeaders hs = setHeaderFold hs securityHeaderList := rfl

theorem filter_filter_and {α : Type} (l : List α) (p q : α → Bool) :
    (l.filter p).filter q = l.filter (fun a => p a && q a) := by
  induction l with
  | nil => rfl
  | cons x tl ih =>
      by_cases hp : p x <;> by_cases hq : q x <;>
        simp [List.filter_cons, hp, hq, ih]

theorem setHeaderFold_characterization (L : List (String × String)) :
    (L.map Prod.fst).Nodup →
      ∀ hs, setHeaderFold hs L = hs.filter (keyNotIn L) ++ L := by
  induction L with
  | nil =>
      intro _ hs
      simp only [setHeaderFold, List.foldl_nil, List.append_nil]
      exact (List.filter_eq_self.mpr (fun a _ => rfl)).symm
  | cons kv L ih =>
      intro hnd hs
      rw [List.map_cons, List.nodup_cons] at hnd
      obtain ⟨hk, hnd'⟩ := hnd
      show setHeaderFold (setHeader hs kv.1 kv.2) L = _
      rw [ih hnd' (setHeader hs kv.1 kv.2)]
      have hkv : keyNotIn L kv = true := by
        apply List.all_eq_true.mpr
        intro kv' hkv'
        exact bne_iff_ne.mpr (fun he => hk (he ▸ List.mem_map_of_mem Prod.fst hkv'))
      show ((hs.filter (fun p => p.1 != kv.1) ++ [(kv.1, kv.2)]).filter (keyNotIn L)) ++ L = _
      rw [List.filter_append, filter_filter_and]
      have hsingle : ([(kv.1, kv.2)] : List (String × String)).filter (keyNotIn L) = [kv] := by
        simp [List.filter_cons, hkv]
      rw [hsingle]
      have hpred : ∀ p : String × String,
          (p.1 != kv.1 && keyNotIn L p) = keyNotIn (kv :: L) p := by
        intro p
        simp [keyNotIn, List.all_cons]
      rw [List.filter_congr (fun p _ => hpred p)]
      simp

/--
Claim C9: the security-headers stage is idempotent: applying it twice to the
same response yields exactly the same header list as applying it once, because
each security header is set by assignment rather than appended.
-/
theorem security_headers_idempotent (hs : List (String × String)) :
    applySecurityHeaders (applySecurityHeaders hs) = applySecurityHeaders hs := by
  have hnd : (securityHeaderList.map Prod.fst).Nodup := by decide
  have hchar := setHeaderFold_characterization securityHeaderList hnd
  rw [applySecurityHeaders_eq_fold hs, applySecurityHeaders_eq_fold, hchar, hchar]
  rw [List.filter_append, filter_filter_and]
  have h1 : securityHeaderList.filter (keyNotIn securityHeaderList) = [] := by decide
  have h2 : hs.filter (fun a => keyNotIn securityHeaderList a && keyNotIn securityHeaderList a) =
      hs.filter (keyNotIn securityHeaderList) :=
    List.filter_congr (fun a _ => Bool.and_self _)
  rw [h1, h2]
  simp

/--
Claim C7: the concrete query string containing the tautology-and-comment
probe is flagged suspicious by the injection screen; with blocking enabled the
dispatch returns the 400 response whatever the downstream handler would have
produced (the handler is never consulted); and the heuristics are
OR-combined: a match of any single pattern flags the whole input.
-/
theorem injection_screen_blocks :
    checkSqlInjection c7Query = true
    ∧ (∀ (callNext : HttpResponse) (pathParams : String),
        sqlInjectionDispatch true
            [("query_params", c7Query), ("path_params", pathParams)] callNext =
          { status := 400, content := "Invalid request" })
    ∧ (∀ (text : String) (i : Nat) (h : i < sqlPatterns.length),
        search sqlPatterns[i] text = true → checkSqlInjection text = true) := by
  refine ⟨by decide, ?_, ?_⟩
  · intro callNext pathParams
    have hq : checkSqlInjection c7Query = true := by decide
    simp [sqlInjectionDispatch, sqlInjectionLoop, hq]
  · intro text i h hmatch
    have hmem : sqlPatterns[i] ∈ sqlPatterns := List.getElem_mem h
    exact List.any_eq_true.mpr ⟨sqlPatterns[i], hmem, hmatch⟩

theorem injection_screen_blocks_witness :
    (2 < sqlPatterns.length ∧ search sqlPatterns[2] c7Query = true) ∧
    checkSqlInjection c7Query = true := by
  refine ⟨⟨by decide, by decide⟩, ?_⟩
  exact injection_screen_blocks.2.2 c7Query 2 (by decide) (by decide)

theorem runLimiter_append (w limit : Int) (xs ys : List Int) :
    ∀ rec, runLimiter w limit rec (xs ++ ys) =
      runLimiter w limit rec xs ++ runLimiter w limit (limiterState w limit rec xs) ys := by
  induction xs with
  | nil => intro rec; rfl
  | cons t rest ih =>
      intro rec
      show (t, _) :: runLimiter w limit _ (rest ++ ys) = _
      rw [ih]
      rfl

theorem runLimiter_map_fst (w limit : Int) (ts : List Int) :
    ∀ rec, (runLimiter w limit rec ts).map Prod.fst = ts := by
  induction ts with
  | nil => intro rec; rfl
  | cons t rest ih =>
      intro rec
      show t :: (runLimiter w limit _ rest).map Prod.fst = _
      rw [ih]

theorem filter_lt_absorb (l : List Int) {a b : Int} (hab : a ≤ b) :
    (l.filter (fun x => decide (a < x))).filter (fun x => decide (b < x)) =
      l.filter (fun x => decide (b < x)) := by
  induction l with
  | nil => rfl
  | cons x tl ih =>
      by_cases hb : b < x
      · have ha : a < x := lt_of_le_of_lt hab hb
        simp [List.filter_cons, ha, hb, ih]
      · by_cases ha : a < x <;> simp [List.filter_cons, ha, hb, ih]

theorem limiterState_concat (w limit : Int) (hw : 0 < w) :
    ∀ (xs : List Int) (t : Int) (rec : List Int),
      (xs ++ [t]).Pairwise (· < ·) →
      limiterState w limit rec (xs ++ [t]) =
        (rec ++ xs ++ [t]).filter (fun x => decide (t - w < x)) := by
  intro xs
  induction xs with
  | nil =>
      intro t rec _
      have ht : t - w < t := by omega
      show (checkRateLimit w limit t rec).2 = _
      simp [checkRateLimit, List.filter_append, List.filter_cons, ht]
  | cons s ss ih =>
      intro t rec hpw
      have hpw' : (ss ++ [t]).Pairwise (· < ·) := (List.pairwise_cons.mp hpw).2
      have hst : s ≤ t :=
        le_of_lt ((List.pairwise_cons.mp hpw).1 t (by simp))
      have habs := filter_lt_absorb rec (show s - w ≤ t - w by omega)
      show limiterState w limit (checkRateLimit w limit s rec).2 (ss ++ [t]) = _
      rw [ih t _ hpw']
      simp only [checkRateLimit]
      rw [List.append_assoc, List.append_assoc, List.append_assoc]
      rw [List.filter_append, List.filter_append, habs]
      rw [← List.filter_append, ← List.filter_append]
      simp [List.filter_append]

/--
Claim C1: for every sequence of calls of the rate-limit check with a fixed key
and limit, at strictly increasing call timestamps, the number of permitted
calls inside any trailing window-sized slice `(T - w, T]` never exceeds the
limit.
-/
theorem rate_limiter_sliding_window_bound (w limit : Int) (ts : List Int) (T : Int)
    (hw : 0 < w) (hlim : 0 ≤ limit) (hts : ts.Pairwise (· < ·)) :
    (((runLimiter w limit [] ts).countP
        (fun p => p.2 && decide (T - w < p.1) && decide (p.1 ≤ T))) : Int) ≤ limit := by
  induction ts using List.reverseRecOn with
  | nil => simpa using hlim
  | append_singleton xs t ih =>
      have hsplit := List.pairwise_append.mp hts
      have hxs : xs.Pairwise (· < ·) := hsplit.1
      have hlt : ∀ x ∈ xs, x < t := fun x hx => hsplit.2.2 x hx t (by simp)
      rw [runLimiter_append w limit xs [t] []]
      rw [List.countP_append]
      set S := limiterState w limit [] xs with hS
      set P : Int × Bool → Bool :=
        fun p => p.2 && decide (T - w < p.1) && decide (p.1 ≤ T) with hP
      have hsingle : runLimiter w limit S [t] = [(t, (checkRateLimit w limit t S).1.1)] := rfl
      rw [hsingle]
      by_cases hPt : P (t, (checkRateLimit w limit t S).1.1) = true
      · -- the final call is permitted and lies inside the slice
        have hparts := hPt
        rw [hP] at hparts
        simp only [Bool.and_eq_true, decide_eq_true_eq] at hparts
        obtain ⟨⟨ha, hTw⟩, htT⟩ := hparts
        -- the admitted count at the final call bounds the window content
        have hcount : ((S.filter (fun x => decide (t - w < x))).length : Int) + 1 ≤ limit := by
          have ha' := ha
          simp only [checkRateLimit, List.length_append, List.length_singleton,
            decide_eq_true_eq] at ha'
          push_cast at ha'
          omega
        -- permitted prefix calls inside the slice all sit inside the window of t
        have hmono : (runLimiter w limit [] xs).countP P ≤
            (runLimiter w limit [] xs).countP (fun p => decide (t - w < p.1)) := by
          apply List.countP_mono_left
          intro p _ hp
          rw [hP] at hp
          simp only [Bool.and_eq_true, decide_eq_true_eq] at hp
          exact decide_eq_true (by omega)
        have hmap : (runLimiter w limit [] xs).countP (fun p => decide (t - w < p.1)) =
            xs.countP (fun x => decide (t - w < x)) := by
          conv_rhs => rw [← runLimiter_map_fst w limit xs []]
          rw [List.countP_map]
          rfl
        -- and the window of t is exactly what the final check counted
        have hfilters : xs.countP (fun x => decide (t - w < x)) =
            (S.filter (fun x => decide (t - w < x))).length := by
          rcases List.eq_nil_or_concat xs with hnil | ⟨ys, s, hcat⟩
          · rw [hS, hnil]
            rfl
          · rw [List.concat_eq_append] at hcat
            have hslast : s < t := hlt s (by rw [hcat]; simp)
            have hpairs : (ys ++ [s]).Pairwise (· < ·) := hcat ▸ hxs
            rw [hS, hcat, limiterState_concat w limit hw ys s [] hpairs]
            rw [List.nil_append]
            rw [filter_lt_absorb _ (show s - w ≤ t - w by omega)]
            rw [List.countP_eq_length_filter]
        have hprefix : (runLimiter w limit [] xs).countP P ≤
            (S.filter (fun x => decide (t - w < x))).length :=
          le_trans hmono (le_of_eq (hmap.trans hfilters))
        rw [List.countP_cons, if_pos hPt]
        simp only [List.countP_nil]
        push_cast
        omega
      · rw [List.countP_cons, if_neg hPt]
        simp only [List.countP_nil]
        have hih := ih hxs
        push_cast
        push_cast at hih
        omega

theorem rate_limiter_sliding_window_bound_witness :
    (0:Int) < 2 ∧ (0:Int) ≤ 1 ∧ ([0, 1, 2] : List Int).Pairwise (· < ·) ∧
    (((runLimiter 2 1 [] [0, 1, 2]).countP
        (fun p => p.2 && decide ((2:Int) - 2 < p.1) && decide (p.1 ≤ (2:Int)))) : Int) ≤ 1 :=
  ⟨by decide, by decide, by decide,
    rate_limiter_sliding_window_bound 2 1 [0, 1, 2] 2 (by decide) (by decide) (by decide)⟩
